import Mathlib

/-!
Shallow embedding of the identifier-resolution and command-dispatch core of
the `infrablockspace-parachain` node binary
(`src/infrablockspace-parachain/src/command.rs` and
`src/infrablockspace-parachain/src/chain_spec/infra_asset_system.rs`).

Rust strings are modelled as lists of characters (`RStr`).  All identifier
prefixes occurring in the source are ASCII, so Rust's byte-level operations
(`starts_with`, byte-range slicing at ASCII boundaries, `replace` with the
single-character pattern) coincide with the character-level operations used
here.  A Rust `panic!`/`expect` failure is modelled as a distinguished value
(`none`, `PanicOr.panic`, or `LoadResult.panic`), distinct from an error
returned as a `Result::Err` value (`LoadResult.err`).
-/

/-- Rust string slices / owned strings, as lists of characters. -/
abbrev RStr := List Char

/-- Embed a Lean string literal as an `RStr`. -/
def rstr (s : String) : RStr := s.data

/-- Model of Rust `id.replace("_", "-")`.  The pattern is a single character,
so the replacement is character-wise. -/
def replaceUnderscore (s : RStr) : RStr :=
  s.map (fun c => if c = '_' then '-' else c)

/-- Model of Rust `str::parse::<u32>()`: an optional leading plus sign
followed by at least one ASCII digit, with the resulting value required to
fit in 32 bits (otherwise the parse fails with an overflow error). -/
def parseU32 (s : RStr) : Option Nat :=
  let t := if List.take 1 s = ['+'] then List.drop 1 s else s
  if t.isEmpty then none
  else if t.all Char.isDigit then
    let v := t.foldl (fun a c => a * 10 + (c.toNat - 48)) 0
    if v < 4294967296 then some v else none
  else none

/-- Model of Rust `str::starts_with`: the first `p.length` characters of `s`
equal `p`. -/
def startsWithS (s p : RStr) : Bool := decide (List.take p.length s = p)

/-- `KUSAMA_TEST_PARA_PREFIX` from `extract_parachain_id`
(command.rs line 132); the trailing `IX` is dropped from the Lean name. -/
def KUSAMA_TEST_PARA_PREF : RStr := rstr "penpal-kusama-"

/-- `INFRABLOCKSPACE_TEST_PARA_PREFIX` from `extract_parachain_id`
(command.rs line 133); the trailing `IX` is dropped from the Lean name. -/
def INFRABLOCKSPACE_TEST_PARA_PREF : RStr := rstr "penpal-polkadot-"

/-- `extract_parachain_id` (command.rs lines 131-148).  Returns
`(norm_id, orig_id, para)`.  The Rust function panics (via
`expect("Invalid parachain-id suffix")`) when a test-network prefix matches
but the suffix does not parse as a `u32`; that panic is modelled as `none`. -/
def extract_parachain_id (id : RStr) : Option (RStr × RStr × Option Nat) :=
  if startsWithS id KUSAMA_TEST_PARA_PREF = true then
    match parseU32 (List.drop KUSAMA_TEST_PARA_PREF.length id) with
    | some para_id =>
        some (List.take (KUSAMA_TEST_PARA_PREF.length - 1) id, id, some para_id)
    | none => none
  else if startsWithS id INFRABLOCKSPACE_TEST_PARA_PREF = true then
    match parseU32 (List.drop INFRABLOCKSPACE_TEST_PARA_PREF.length id) with
    | some para_id =>
        some (List.take (INFRABLOCKSPACE_TEST_PARA_PREF.length - 1) id, id, some para_id)
    | none => none
  else
    some (id, id, none)

/-- The `Runtime` enum (command.rs lines 39-45).  `Default` is the
`#[default]` variant. -/
inductive Runtime
  | Default
  | InfraAssetSystem
deriving DecidableEq

/-- `fn runtime(id: &str) -> Runtime` (command.rs lines 74-84).  The Rust
code first replaces underscores with hyphens, then calls
`extract_parachain_id` and binds the middle component (the original,
underscore-replaced id, not the stripped canonical id), then branches on
`id.starts_with("infra-asset-system")`.  The panic inside
`extract_parachain_id` propagates, so the function is modelled as returning
`Option Runtime` with `none` for the panic. -/
def runtime (id : RStr) : Option Runtime :=
  let id2 := replaceUnderscore id
  match extract_parachain_id id2 with
  | none => none
  | some (_, id3, _) =>
      if startsWithS id3 (rstr "infra-asset-system") = true then
        some Runtime.InfraAssetSystem
      else
        some Runtime.Default

/-- Minimal JSON value model, used for the id-only deserialization performed
by `impl RuntimeResolver for PathBuf` (command.rs lines 58-72). -/
inductive Json
  | null
  | bool (b : Bool)
  | num (n : Int)
  | str (s : RStr)
  | arr (elems : List Json)
  | obj (fields : List (RStr × Json))

/-- First-match field lookup in a JSON object. -/
def lookupField : List (RStr × Json) → RStr → Option Json
  | [], _ => none
  | (k, v) :: rest, key => if k = key then some v else lookupField rest key

/-- Deserialization of the local `EmptyChainSpecWithId { id: String }` struct
(command.rs lines 60-63): succeeds exactly when the document is a JSON
object whose `id` field is a string; every other field is ignored. -/
def deserializeEmptyChainSpecWithId (j : Json) : Option RStr :=
  match j with
  | Json.obj fields =>
      match lookupField fields (rstr "id") with
      | some (Json.str s) => some s
      | _ => none
  | _ => none

/-- `sc_service::ChainType` values used in this slice. -/
inductive ChainType
  | Development
  | Local
  | Live
deriving DecidableEq

/-- The `Extensions` record carried by every chain specification
(`chain_spec::Extensions`, whose definition lives in `chain_spec/mod.rs`,
outside this slice; its two fields are visible at the construction sites in
`infra_asset_system.rs` and at the node-start read in command.rs line 508). -/
structure Extensions where
  relay_chain : RStr
  para_id : Nat
deriving DecidableEq

/-- Modelled from the spec: account ids are produced either by
`get_account_id_from_seed::<sr25519::Public>` (a deterministic derivation
from a seed string, defined in `chain_spec/mod.rs` outside this slice) or
from hard-coded hex public keys (`hex!(..).into()`).  Both derivations are
deterministic and injective, so they are modelled as constructors. -/
inductive AccountId
  | fromSeed (seed : RStr)
  | fromHex (hex : RStr)
deriving DecidableEq

/-- Modelled from the spec: Aura authoring keys, produced either by
`get_collator_keys_from_seed::<AuraId>` (outside this slice) or from
hard-coded hex keys (`hex!(..).unchecked_into()`). -/
inductive AuraId
  | fromSeed (seed : RStr)
  | fromHexUnchecked (hex : RStr)
deriving DecidableEq

/-- `infra_asset_system_runtime::SessionKeys` as populated by
`infra_asset_system_session_keys` (infra_asset_system.rs lines 36-38). -/
structure SessionKeys where
  aura : AuraId
deriving DecidableEq

/-- `infra_asset_system_session_keys` (infra_asset_system.rs lines 36-38). -/
def infra_asset_system_session_keys (keys : AuraId) : SessionKeys :=
  { aura := keys }

/-- Token for the compiled runtime bytecode
(`infra_asset_system_runtime::WASM_BINARY`), an external compile-time
constant of the runtime crate, identical across all calls. -/
inductive WasmCode
  | infraAssetSystemWasm
deriving DecidableEq

/-- Token for `SAFE_XCM_VERSION` (defined in `chain_spec/mod.rs`, outside
this slice): a fixed cross-chain-messaging compatibility constant. -/
inductive XcmVersionKind
  | safeXcmVersion
deriving DecidableEq

/-- The `pallet_assets::GenesisConfig` fields set by
`infra_asset_system_genesis` (infra_asset_system.rs lines 226-240); the
remaining fields come from `..Default::default()` and are omitted.  Each
asset entry is `(asset_id, owner, is_sufficient, min_balance)`; each account
entry is `(asset_id, account, balance)`. -/
structure AssetsGenesis where
  assets : List (Nat × AccountId × Bool × Nat)
  metadata : List (Nat × RStr × RStr × Nat)
  accounts : List (Nat × AccountId × Nat)
deriving DecidableEq

/-- `infra_asset_system_runtime::GenesisConfig` as populated by
`infra_asset_system_genesis` (infra_asset_system.rs lines 188-251).  The
`aura`, `aura_ext` and `parachain_system` sections are `Default::default()`
in the source and are omitted; the system `code` section is the external
WASM blob token. -/
structure GenesisConfig where
  code : WasmCode
  balances : List (AccountId × Nat)
  parachain_id : Nat
  invulnerables : List AccountId
  candidacy_bond : Nat
  session_keys : List (AccountId × AccountId × SessionKeys)
  assets : AssetsGenesis
  sudo_key : Option AccountId
  safe_xcm_version : Option XcmVersionKind
deriving DecidableEq

/-- `infra_asset_system_genesis` (infra_asset_system.rs lines 188-251).
`ED` stands for `INFRA_ASSET_SYSTEM_ED`, i.e.
`infra_asset_system_runtime::constants::currency::EXISTENTIAL_DEPOSIT`, an
external constant of the runtime crate (not in this slice); the function is
therefore parameterized over its value. -/
def infra_asset_system_genesis (ED : Nat)
    (invulnerables : List (AccountId × AuraId))
    (endowed_accounts : List AccountId) (id : Nat) : GenesisConfig :=
  let root_key := AccountId.fromSeed (rstr "Alice")
  { code := WasmCode.infraAssetSystemWasm
    balances := endowed_accounts.map (fun k => (k, ED * 4096))
    parachain_id := id
    invulnerables := invulnerables.map (fun p => p.1)
    candidacy_bond := ED * 16
    session_keys := invulnerables.map
      (fun p => (p.1, p.1, infra_asset_system_session_keys p.2))
    assets :=
      { assets := [(99, AccountId.fromSeed (rstr "Alice"), true, 1000)]
        metadata := [(99, rstr "iTEST", rstr "iTEST", 12)]
        accounts := [(99, AccountId.fromSeed (rstr "Alice"),
                       1000000000000000000000)] }
    sudo_key := some root_key
    safe_xcm_version := some XcmVersionKind.safeXcmVersion }

/-- Values of the `sc_chain_spec::Properties` maps built in the three
config constructors. -/
inductive PropVal
  | s (v : RStr)
  | n (v : Nat)
deriving DecidableEq

/-- An in-process-built chain specification
(`InfraAssetSystemChainSpec::from_genesis`): name, id, chain type,
materialized genesis, bootnodes, token-display properties and extensions
(the telemetry / protocol-id / fork-id arguments are all `None` at every
construction site in this slice and are omitted). -/
structure ChainSpecData where
  name : RStr
  id : RStr
  chain_type : ChainType
  genesis : GenesisConfig
  boot_nodes : List RStr
  properties : List (RStr × PropVal)
  extensions : Extensions
deriving DecidableEq

/-- `infra_asset_system_development_config`
(infra_asset_system.rs lines 40-75). -/
def infra_asset_system_development_config (ED : Nat) : ChainSpecData :=
  { name := rstr "Infra Asset System Development"
    id := rstr "infra_asset_system_dev"
    chain_type := ChainType.Local
    genesis := infra_asset_system_genesis ED
      [(AccountId.fromSeed (rstr "Alice"), AuraId.fromSeed (rstr "Alice"))]
      [AccountId.fromSeed (rstr "Alice"), AccountId.fromSeed (rstr "Bob"),
       AccountId.fromSeed (rstr "Alice//stash"),
       AccountId.fromSeed (rstr "Bob//stash")]
      1000
    boot_nodes := []
    properties := [(rstr "ss58Format", PropVal.n 0),
                   (rstr "tokenSymbol", PropVal.s (rstr "")),
                   (rstr "tokenDecimals", PropVal.n 10)]
    extensions := { relay_chain := rstr "polkadot-dev", para_id := 1000 } }

/-- `infra_asset_system_local_config`
(infra_asset_system.rs lines 77-126). -/
def infra_asset_system_local_config (ED : Nat) : ChainSpecData :=
  { name := rstr "Infra Asset System Local"
    id := rstr "infra_asset_system_local"
    chain_type := ChainType.Local
    genesis := infra_asset_system_genesis ED
      [(AccountId.fromSeed (rstr "Alice"), AuraId.fromSeed (rstr "Alice")),
       (AccountId.fromSeed (rstr "Bob"), AuraId.fromSeed (rstr "Bob"))]
      [AccountId.fromSeed (rstr "Alice"), AccountId.fromSeed (rstr "Bob"),
       AccountId.fromSeed (rstr "Charlie"), AccountId.fromSeed (rstr "Dave"),
       AccountId.fromSeed (rstr "Eve"), AccountId.fromSeed (rstr "Ferdie"),
       AccountId.fromSeed (rstr "Alice//stash"),
       AccountId.fromSeed (rstr "Bob//stash"),
       AccountId.fromSeed (rstr "Charlie//stash"),
       AccountId.fromSeed (rstr "Dave//stash"),
       AccountId.fromSeed (rstr "Eve//stash"),
       AccountId.fromSeed (rstr "Ferdie//stash")]
      1000
    boot_nodes := []
    properties := [(rstr "ss58Format", PropVal.n 0),
                   (rstr "tokenSymbol", PropVal.s (rstr "")),
                   (rstr "tokenDecimals", PropVal.n 10)]
    extensions := { relay_chain := rstr "infrablockspace-local",
                    para_id := 1000 } }

/-- `infra_asset_system_config` (infra_asset_system.rs lines 129-186). -/
def infra_asset_system_config (ED : Nat) : ChainSpecData :=
  { name := rstr "Infra Asset System"
    id := rstr "infra-asset-system"
    chain_type := ChainType.Live
    genesis := infra_asset_system_genesis ED
      [(AccountId.fromHex
          (rstr "4c3d674d2a01060f0ded218e5dcc6f90c1726f43df79885eb3e22d97a20d5421"),
        AuraId.fromHexUnchecked
          (rstr "4c3d674d2a01060f0ded218e5dcc6f90c1726f43df79885eb3e22d97a20d5421")),
       (AccountId.fromHex
          (rstr "c7d7d38d16bc23c6321152c50306212dc22c0efc04a2e52b5cccfc31ab3d7811"),
        AuraId.fromHexUnchecked
          (rstr "c7d7d38d16bc23c6321152c50306212dc22c0efc04a2e52b5cccfc31ab3d7811")),
       (AccountId.fromHex
          (rstr "c5c07ba203d7375675f5c1ebe70f0a5bb729ae57b48bcc877fcc2ab21309b762"),
        AuraId.fromHexUnchecked
          (rstr "c5c07ba203d7375675f5c1ebe70f0a5bb729ae57b48bcc877fcc2ab21309b762")),
       (AccountId.fromHex
          (rstr "0b2d0013fb974794bd7aa452465b567d48ef70373fe231a637c1fb7c547e85b3"),
        AuraId.fromHexUnchecked
          (rstr "0b2d0013fb974794bd7aa452465b567d48ef70373fe231a637c1fb7c547e85b3"))]
      []
      1000
    boot_nodes :=
      [rstr "/ip4/34.65.251.121/tcp/30334/p2p/12D3KooWG3GrM6XKMM4gp3cvemdwUvu96ziYoJmqmetLZBXE8bSa",
       rstr "/ip4/34.65.35.228/tcp/30334/p2p/12D3KooWMRyTLrCEPcAQD6c4EnudL3vVzg9zji3whvsMYPUYevpq",
       rstr "/ip4/34.83.247.146/tcp/30334/p2p/12D3KooWE4jFh5FpJDkWVZhnWtFnbSqRhdjvC7Dp9b8b3FTuubQC",
       rstr "/ip4/104.199.117.230/tcp/30334/p2p/12D3KooWG9R8pVXKumVo2rdkeVD4j5PVhRTqmYgLHY3a4yPYgLqM"]
    properties := [(rstr "ss58Format", PropVal.n 0),
                   (rstr "tokenSymbol", PropVal.s (rstr "DOT")),
                   (rstr "tokenDecimals", PropVal.n 10)]
    extensions := { relay_chain := rstr "infrablockspace", para_id := 1000 } }

/-- `impl RuntimeResolver for dyn ChainSpec` (command.rs lines 51-55):
classification from an already-constructed chain specification object reads
its short-id field and applies `runtime`. -/
def chainSpecRuntime (s : ChainSpecData) : Option Runtime := runtime s.id

/-- Environment model of the filesystem as seen by
`impl RuntimeResolver for PathBuf` and
`InfraAssetSystemChainSpec::from_json_file`: a path maps to a missing file,
a file that is not parseable JSON, or a JSON document `j` together with the
outcome `full` of the (external, `sc_service`-implemented) full
chain-specification deserialization of that same document. -/
inductive FsFile
  | missing
  | notJson
  | file (j : Json) (full : Option ChainSpecData)

/-- Outcome of a computation that can abort the process: either a panic
with the panic message, or a value. -/
inductive PanicOr (α : Type)
  | panic (msg : String)
  | ok (a : α)
deriving DecidableEq

/-- `impl RuntimeResolver for PathBuf` (command.rs lines 58-72): opens the
file (panicking via `expect("Failed to open file")` when that fails),
deserializes only the `id` field (panicking via
`expect("Failed to read json file with ChainSpec configuration")` when the
document is not JSON or has no string `id`), then classifies the id with
`runtime` (whose own panic propagates). -/
def pathBufRuntime (fs : RStr → FsFile) (path : RStr) : PanicOr Runtime :=
  match fs path with
  | FsFile.missing => PanicOr.panic "Failed to open file"
  | FsFile.notJson =>
      PanicOr.panic "Failed to read json file with ChainSpec configuration"
  | FsFile.file j _ =>
      match deserializeEmptyChainSpecWithId j with
      | none =>
          PanicOr.panic "Failed to read json file with ChainSpec configuration"
      | some i =>
          match runtime i with
          | none => PanicOr.panic "Invalid parachain-id suffix"
          | some r => PanicOr.ok r

/-- The concrete chain-specification types a file can be loaded as.  In this
slice exactly one such type exists (`InfraAssetSystemChainSpec`,
infra_asset_system.rs lines 27-28). -/
inductive SpecType
  | infraAssetSystemChainSpec
deriving DecidableEq

/-- The chain-spec type used by the file-loading branch of `load_spec`
(command.rs lines 110-124) for each classified runtime variant: both match
arms call `InfraAssetSystemChainSpec::from_json_file`. -/
def load_spec_file_branch (r : Runtime) : SpecType :=
  match r with
  | Runtime.InfraAssetSystem => SpecType.infraAssetSystemChainSpec
  | Runtime.Default => SpecType.infraAssetSystemChainSpec

/-- The boxed `dyn ChainSpec` value produced by `load_spec`: a spec built
in process by one of the three constructors, the spec deserialized from the
embedded `statemine.json` byte blob (an external compile-time constant,
kept symbolic), or a spec deserialized from a file on disk. -/
inductive LoadedSpec
  | built (s : ChainSpecData)
  | fromBytes (resource : String)
  | fromFile (t : SpecType) (s : ChainSpecData)
deriving DecidableEq

/-- Outcome of `load_spec`: a returned specification, a returned
`Err(String)` value, or a process abort (panic). -/
inductive LoadResult
  | ok (s : LoadedSpec)
  | err (msg : String)
  | panic (msg : String)
deriving DecidableEq

/-- The match body of `load_spec` over the stripped canonical id
(command.rs lines 88-125): the built-in short-name arms, the empty-string
fallback arm, and the file-path fallback arm, exactly as matched in the
source (factored out of `load_spec` as a named function). -/
def load_spec_branches (ED : Nat) (fs : RStr → FsFile) (id : RStr) : LoadResult :=
  if id = rstr "infra-asset-system-dev" then
    LoadResult.ok (LoadedSpec.built (infra_asset_system_development_config ED))
  else if id = rstr "infra-asset-system-local" then
    LoadResult.ok (LoadedSpec.built (infra_asset_system_local_config ED))
  else if id = rstr "infra-asset-system-genesis" then
    LoadResult.ok (LoadedSpec.built (infra_asset_system_config ED))
  else if id = rstr "infra-asset-system" then
    LoadResult.ok (LoadedSpec.fromBytes "parachains/chain-specs/statemine.json")
  else if id = rstr "" then
    LoadResult.ok (LoadedSpec.built (infra_asset_system_local_config ED))
  else
    match pathBufRuntime fs id with
    | PanicOr.panic m => LoadResult.panic m
    | PanicOr.ok r =>
        match fs id with
        | FsFile.file _ (some sp) =>
            LoadResult.ok (LoadedSpec.fromFile (load_spec_file_branch r) sp)
        | FsFile.file _ none => LoadResult.err "from_json_file error"
        | FsFile.missing => LoadResult.err "from_json_file error"
        | FsFile.notJson => LoadResult.err "from_json_file error"

/-- `fn load_spec(id: &str)` (command.rs lines 86-126).  The raw id is
passed to `extract_parachain_id` (whose panic propagates; no underscore
replacement happens here) and the first (stripped) component drives the
branching in `load_spec_branches`; an id matching none of the built-in
names is treated as a filesystem path, classified by `pathBufRuntime`
(whose panics propagate) and then loaded via `from_json_file`, whose
failure is returned as an `Err` value. -/
def load_spec (ED : Nat) (fs : RStr → FsFile) (id0 : RStr) : LoadResult :=
  match extract_parachain_id id0 with
  | none => LoadResult.panic "Invalid parachain-id suffix"
  | some (id, _, _) => load_spec_branches ED fs id

/-- Token for the native runtime version constants the binary can report. -/
inductive RuntimeVersionKind
  | infraAssetSystemVersion
deriving DecidableEq

/-- The match body of `native_runtime_version` (command.rs lines 185-190):
both runtime variants map to `infra_asset_system_runtime::VERSION`. -/
def native_runtime_version_of (rt : Runtime) : RuntimeVersionKind :=
  match rt with
  | Runtime.InfraAssetSystem => RuntimeVersionKind.infraAssetSystemVersion
  | Runtime.Default => RuntimeVersionKind.infraAssetSystemVersion

/-- Token for the runtime-API type parameter passed to `new_partial`. -/
inductive RuntimeApiKind
  | infraAssetSystemRuntimeApi
deriving DecidableEq

/-- Token for the import-queue builder passed to `new_partial`. -/
inductive ImportQueueKind
  | auraBuildImportQueue
deriving DecidableEq

/-- The generic instantiation of `new_partial` chosen per runtime variant. -/
structure AsyncRunComponents where
  api : RuntimeApiKind
  import_queue : ImportQueueKind
deriving DecidableEq

/-- The per-variant component construction of the `construct_async_run!`
macro (command.rs lines 249-275): each match arm instantiates
`new_partial::<infra_asset_system_runtime::RuntimeApi, _>` with
`aura_build_import_queue::<_, AuraId>`. -/
def construct_async_run_components (rt : Runtime) : AsyncRunComponents :=
  match rt with
  | Runtime.Default =>
      { api := RuntimeApiKind.infraAssetSystemRuntimeApi
        import_queue := ImportQueueKind.auraBuildImportQueue }
  | Runtime.InfraAssetSystem =>
      { api := RuntimeApiKind.infraAssetSystemRuntimeApi
        import_queue := ImportQueueKind.auraBuildImportQueue }

/-- Token for the executor type parameter of pallet benchmarks; the name
keeps the source spelling `InfraAssetSytemExecutor` (command.rs line 20). -/
inductive ExecutorKind
  | infraAssetSytemExecutor
deriving DecidableEq

/-- Which benchmark handler actually ran. -/
inductive BenchHandler
  | palletBench (executor : ExecutorKind)
  | blockBench (api : RuntimeApiKind)
  | storageBench (api : RuntimeApiKind)
  | machineBench
deriving DecidableEq

/-- Outcome of dispatching one benchmark sub-command: either a handler was
invoked, or an explicit error value was returned.  The dispatch match in the
source is total and has no panicking arm, so no panic outcome exists. -/
inductive DispatchOutcome
  | ran (h : BenchHandler)
  | errored (msg : String)
deriving DecidableEq

/-- The `construct_benchmark_partials!` macro (command.rs lines 234-247):
builds partial components for the supported runtimes and runs the given
code, or returns the error "The chain is not supported" for every other
variant. -/
def construct_benchmark_partials (rt : Runtime)
    (code : RuntimeApiKind → DispatchOutcome) : DispatchOutcome :=
  match rt with
  | Runtime.InfraAssetSystem => code RuntimeApiKind.infraAssetSystemRuntimeApi
  | _ => DispatchOutcome.errored "The chain is not supported"

/-- The benchmark sub-commands of `frame_benchmarking_cli::BenchmarkCmd`
matched in the `Benchmark` arm of `run` (command.rs lines 343-391).
`Other` stands for any further sub-command of the external enum, absorbed
by the `#[allow(unreachable_patterns)] _` arm. -/
inductive BenchmarkCmd
  | Pallet
  | Block
  | Storage
  | Machine
  | Other
deriving DecidableEq

/-- The `Benchmark` arm of `run` (command.rs lines 343-391).
`runtimeBenchmarks` is the compile-time `runtime-benchmarks` feature flag
(`cfg!(feature = "runtime-benchmarks")` for `Pallet`, the two
`#[cfg]`-gated `Storage` arms). -/
def dispatchBenchmark (runtimeBenchmarks : Bool) (rt : Runtime)
    (cmd : BenchmarkCmd) : DispatchOutcome :=
  match cmd with
  | BenchmarkCmd.Pallet =>
      if runtimeBenchmarks then
        match rt with
        | Runtime.InfraAssetSystem =>
            DispatchOutcome.ran
              (BenchHandler.palletBench ExecutorKind.infraAssetSytemExecutor)
        | _ =>
            DispatchOutcome.errored "Chain doesn't support benchmarking"
      else
        DispatchOutcome.errored
          "Benchmarking wasn't enabled when building the node."
  | BenchmarkCmd.Block =>
      construct_benchmark_partials rt
        (fun api => DispatchOutcome.ran (BenchHandler.blockBench api))
  | BenchmarkCmd.Storage =>
      if runtimeBenchmarks then
        construct_benchmark_partials rt
          (fun api => DispatchOutcome.ran (BenchHandler.storageBench api))
      else
        DispatchOutcome.errored
          "Compile with --features=runtime-benchmarks to enable storage benchmarks."
  | BenchmarkCmd.Machine => DispatchOutcome.ran BenchHandler.machineBench
  | BenchmarkCmd.Other =>
      DispatchOutcome.errored "Benchmarking sub-command unsupported"

/-- Whether a dispatch outcome is an explicit returned error. -/
def isErrored : DispatchOutcome → Bool
  | DispatchOutcome.errored _ => true
  | DispatchOutcome.ran _ => false

/-- Node-start handlers selectable by the final match of the node-start arm
of `run` (command.rs lines 542-557). -/
inductive NodeHandler
  | startGenericAuraNode (api : RuntimeApiKind)
deriving DecidableEq

/-- The per-variant handler selection of the node-start arm (command.rs
lines 542-557): both variants start
`start_generic_aura_node::<infra_asset_system_runtime::RuntimeApi, AuraId>`. -/
def node_start_handler (rt : Runtime) : NodeHandler :=
  match rt with
  | Runtime.Default =>
      NodeHandler.startGenericAuraNode RuntimeApiKind.infraAssetSystemRuntimeApi
  | Runtime.InfraAssetSystem =>
      NodeHandler.startGenericAuraNode RuntimeApiKind.infraAssetSystemRuntimeApi

/-- What the node-start path resolved: the sub-chain id taken from the
extensions record, and the handler chosen for the active runtime variant. -/
structure NodeStart where
  para_id : Nat
  handler : NodeHandler
deriving DecidableEq

/-- The resolution prelude and final dispatch of the node-start arm of
`run` (command.rs lines 507-557): `Extensions::try_get` yields the
extensions record when the active chain specification carries one (`ext`),
the missing record is turned into an explicit error via `ok_or_else`, and
the `para_id` field becomes the sub-chain id passed to the chosen
handler. -/
def run_node_start (ext : Option Extensions) (rt : Runtime) :
    Except String NodeStart :=
  match ext with
  | none => Except.error "Could not find parachain extension in chain-spec."
  | some e => Except.ok { para_id := e.para_id, handler := node_start_handler rt }

lemma startsWithS_iff {s p : RStr} :
    startsWithS s p = true ↔ List.take p.length s = p := by
  simp [startsWithS]

lemma take_of_startsWith {s p : RStr} {m : Nat} (h : startsWithS s p = true)
    (hm : m ≤ p.length) : List.take m s = List.take m p := by
  have h' : List.take p.length s = p := startsWithS_iff.mp h
  calc List.take m s = List.take (min m p.length) s := by rw [Nat.min_eq_left hm]
    _ = List.take m (List.take p.length s) := (List.take_take m p.length s).symm
    _ = List.take m p := by rw [h']

lemma kusama_stem {s : RStr} (h : startsWithS s KUSAMA_TEST_PARA_PREF = true) :
    List.take 13 s = rstr "penpal-kusama" := by
  have h' := take_of_startsWith h
    (show 13 ≤ KUSAMA_TEST_PARA_PREF.length by decide)
  rw [h']
  decide

lemma polkadot_stem {s : RStr}
    (h : startsWithS s INFRABLOCKSPACE_TEST_PARA_PREF = true) :
    List.take 15 s = rstr "penpal-polkadot" := by
  have h' := take_of_startsWith h
    (show 15 ≤ INFRABLOCKSPACE_TEST_PARA_PREF.length by decide)
  rw [h']
  decide

lemma not_infra_of_kusama {s : RStr}
    (h : startsWithS s KUSAMA_TEST_PARA_PREF = true) :
    startsWithS s (rstr "infra-asset-system") = false := by
  cases hI : startsWithS s (rstr "infra-asset-system") with
  | false => rfl
  | true =>
    have h1 : List.take 14 s = List.take 14 KUSAMA_TEST_PARA_PREF :=
      take_of_startsWith h (by decide)
    have h2 : List.take 14 s = List.take 14 (rstr "infra-asset-system") :=
      take_of_startsWith hI (by decide)
    rw [h1] at h2
    exact absurd h2 (by decide)

lemma not_infra_of_polkadot {s : RStr}
    (h : startsWithS s INFRABLOCKSPACE_TEST_PARA_PREF = true) :
    startsWithS s (rstr "infra-asset-system") = false := by
  cases hI : startsWithS s (rstr "infra-asset-system") with
  | false => rfl
  | true =>
    have h1 : List.take 16 s = List.take 16 INFRABLOCKSPACE_TEST_PARA_PREF :=
      take_of_startsWith h (by decide)
    have h2 : List.take 16 s = List.take 16 (rstr "infra-asset-system") :=
      take_of_startsWith hI (by decide)
    rw [h1] at h2
    exact absurd h2 (by decide)

lemma not_kusama_of_polkadot {s : RStr}
    (h : startsWithS s INFRABLOCKSPACE_TEST_PARA_PREF = true) :
    startsWithS s KUSAMA_TEST_PARA_PREF = false := by
  cases hK : startsWithS s KUSAMA_TEST_PARA_PREF with
  | false => rfl
  | true =>
    have h1 : List.take 14 s = List.take 14 INFRABLOCKSPACE_TEST_PARA_PREF :=
      take_of_startsWith h (by decide)
    have h2 : List.take 14 s = List.take 14 KUSAMA_TEST_PARA_PREF :=
      take_of_startsWith hK (by decide)
    rw [h1] at h2
    exact absurd h2 (by decide)

lemma replaceUnderscore_idem (s : RStr) :
    replaceUnderscore (replaceUnderscore s) = replaceUnderscore s := by
  simp only [replaceUnderscore, List.map_map]
  congr 1
  funext c
  by_cases hc : c = '_'
  · subst hc; decide
  · simp [Function.comp, hc]

lemma extract_eq_of_kusama {id : RStr}
    (hK : startsWithS id KUSAMA_TEST_PARA_PREF = true) :
    extract_parachain_id id =
      match parseU32 (List.drop 14 id) with
      | some n => some (rstr "penpal-kusama", id, some n)
      | none => none := by
  have hlen : KUSAMA_TEST_PARA_PREF.length = 14 := by decide
  have hstem : List.take 13 id = rstr "penpal-kusama" := kusama_stem hK
  simp [extract_parachain_id, hK, hlen, hstem]

lemma extract_eq_of_polkadot {id : RStr}
    (hP : startsWithS id INFRABLOCKSPACE_TEST_PARA_PREF = true) :
    extract_parachain_id id =
      match parseU32 (List.drop 16 id) with
      | some n => some (rstr "penpal-polkadot", id, some n)
      | none => none := by
  have hK := not_kusama_of_polkadot hP
  have hlen : INFRABLOCKSPACE_TEST_PARA_PREF.length = 16 := by decide
  have hstem : List.take 15 id = rstr "penpal-polkadot" := polkadot_stem hP
  simp [extract_parachain_id, hK, hP, hlen, hstem]

lemma extract_eq_of_no_pref {id : RStr}
    (hK : startsWithS id KUSAMA_TEST_PARA_PREF = false)
    (hP : startsWithS id INFRABLOCKSPACE_TEST_PARA_PREF = false) :
    extract_parachain_id id = some (id, id, none) := by
  simp [extract_parachain_id, hK, hP]

/-- Claim C4: for every identifier beginning with a recognized test-network
prefix ("penpal-kusama-" or "penpal-polkadot-"), if the remaining suffix
parses as an unsigned 32-bit integer then the Normalizer
(`extract_parachain_id`) returns a sub-id equal to that integer and a
canonical id equal to the prefix stem (the prefix without its trailing
hyphen); if the suffix does not parse as a `u32`, the Normalizer fails with
a fatal input error (modelled as `none`, the `expect` panic) and never
substitutes a default sub-id. -/
theorem extract_parachain_id_spec (id : RStr) :
    (startsWithS id KUSAMA_TEST_PARA_PREF = true →
      (∀ n, parseU32 (List.drop 14 id) = some n →
          extract_parachain_id id = some (rstr "penpal-kusama", id, some n)) ∧
      (parseU32 (List.drop 14 id) = none → extract_parachain_id id = none)) ∧
    (startsWithS id INFRABLOCKSPACE_TEST_PARA_PREF = true →
      (∀ n, parseU32 (List.drop 16 id) = some n →
          extract_parachain_id id = some (rstr "penpal-polkadot", id, some n)) ∧
      (parseU32 (List.drop 16 id) = none → extract_parachain_id id = none)) := by
  constructor
  · intro hK
    rw [extract_eq_of_kusama hK]
    constructor
    · intro n hn
      rw [hn]
    · intro hn
      rw [hn]
  · intro hP
    rw [extract_eq_of_polkadot hP]
    constructor
    · intro n hn
      rw [hn]
    · intro hn
      rw [hn]

/-- Witness for C4: "penpal-kusama-2004" normalizes to the stem
"penpal-kusama" with sub-id 2004, and "penpal-polkadot-abc" (non-numeric
suffix) makes the Normalizer fail. -/
theorem extract_parachain_id_spec_witness :
    extract_parachain_id (rstr "penpal-kusama-2004") =
      some (rstr "penpal-kusama", rstr "penpal-kusama-2004", some 2004) ∧
    extract_parachain_id (rstr "penpal-polkadot-abc") = none := by
  constructor
  · exact ((extract_parachain_id_spec (rstr "penpal-kusama-2004")).1
      (by decide)).1 2004 (by decide)
  · exact ((extract_parachain_id_spec (rstr "penpal-polkadot-abc")).2
      (by decide)).2 (by decide)

/-- Counterexample to claim C3 as stated: the runtime classifier is not
total and does abort.  On the identifier "penpal-kusama-abc" (a recognized
test prefix with a non-numeric suffix) `runtime` panics via the `expect`
inside `extract_parachain_id` (modelled as `none`) instead of returning any
variant, refuting "total ... never aborting". -/
theorem runtime_total_counterexample :
    runtime (rstr "penpal-kusama-abc") = none := by decide

/-- Claim C3 (amended): on every identifier on which the embedded-sub-id
extraction succeeds (no test prefix, or a test prefix with a valid `u32`
suffix), the classifier `runtime` returns the `InfraAssetSystem` variant
exactly when the canonical id starts with "infra-asset-system" and the
`Default` variant otherwise; on an identifier with a test prefix whose
suffix does not parse, `runtime` aborts (panics) instead of returning a
variant. -/
theorem runtime_classification (id : RStr) :
    (∀ canon orig p,
        extract_parachain_id (replaceUnderscore id) = some (canon, orig, p) →
        runtime id =
          some (if startsWithS canon (rstr "infra-asset-system") = true then
                  Runtime.InfraAssetSystem
                else Runtime.Default)) ∧
    (extract_parachain_id (replaceUnderscore id) = none → runtime id = none) := by
  constructor
  · intro canon orig p h
    have hco : startsWithS canon (rstr "infra-asset-system") =
        startsWithS orig (rstr "infra-asset-system") := by
      by_cases hK : startsWithS (replaceUnderscore id) KUSAMA_TEST_PARA_PREF = true
      · rw [extract_eq_of_kusama hK] at h
        cases hp : parseU32 (List.drop 14 (replaceUnderscore id)) with
        | none =>
          rw [hp] at h
          exact absurd h (by simp)
        | some n =>
          rw [hp] at h
          simp only [Option.some.injEq, Prod.mk.injEq] at h
          obtain ⟨h1, h2, _⟩ := h
          subst h1
          subst h2
          rw [not_infra_of_kusama hK]
          decide
      · by_cases hP : startsWithS (replaceUnderscore id)
            INFRABLOCKSPACE_TEST_PARA_PREF = true
        · rw [extract_eq_of_polkadot hP] at h
          cases hp : parseU32 (List.drop 16 (replaceUnderscore id)) with
          | none =>
            rw [hp] at h
            exact absurd h (by simp)
          | some n =>
            rw [hp] at h
            simp only [Option.some.injEq, Prod.mk.injEq] at h
            obtain ⟨h1, h2, _⟩ := h
            subst h1
            subst h2
            rw [not_infra_of_polkadot hP]
            decide
        · have hK' : startsWithS (replaceUnderscore id) KUSAMA_TEST_PARA_PREF
              = false := by
            cases hv : startsWithS (replaceUnderscore id) KUSAMA_TEST_PARA_PREF
            · rfl
            · exact absurd hv hK
          have hP' : startsWithS (replaceUnderscore id)
              INFRABLOCKSPACE_TEST_PARA_PREF = false := by
            cases hv : startsWithS (replaceUnderscore id)
                INFRABLOCKSPACE_TEST_PARA_PREF
            · rfl
            · exact absurd hv hP
          rw [extract_eq_of_no_pref hK' hP'] at h
          simp only [Option.some.injEq, Prod.mk.injEq] at h
          obtain ⟨h1, h2, _⟩ := h
          subst h1
          subst h2
          rfl
    simp only [runtime]
    rw [h, hco]
    by_cases hA : startsWithS orig (rstr "infra-asset-system") = true
    · simp [hA]
    · simp [hA]
  · intro h
    simp only [runtime]
    rw [h]

/-- Witness for C3 (amended): "infra_asset_system_local" classifies to
`InfraAssetSystem` (its canonical id after separator normalization starts
with "infra-asset-system"), and "penpal-kusama-" (empty suffix) makes the
classifier abort. -/
theorem runtime_classification_witness :
    runtime (rstr "infra_asset_system_local") = some Runtime.InfraAssetSystem ∧
    runtime (rstr "penpal-kusama-") = none := by
  constructor
  · have h := (runtime_classification (rstr "infra_asset_system_local")).1
      (rstr "infra-asset-system-local") (rstr "infra-asset-system-local") none
      (by decide)
    exact h.trans (by decide)
  · exact (runtime_classification (rstr "penpal-kusama-")).2 (by decide)

/-- Claim C9: for every existential-deposit value, invulnerables list,
endowed-accounts list and sub-chain id passed to the genesis builder
`infra_asset_system_genesis`, each endowed account is allocated a balance of
exactly 4096 times the existential-deposit constant, and the
invulnerable-collator candidacy bond equals exactly 16 times that same
constant. -/
theorem infra_asset_system_genesis_balances_bond (ED : Nat)
    (invulnerables : List (AccountId × AuraId))
    (endowed_accounts : List AccountId) (id : Nat) :
    (infra_asset_system_genesis ED invulnerables endowed_accounts id).balances
      = endowed_accounts.map (fun k => (k, ED * 4096)) ∧
    (infra_asset_system_genesis ED invulnerables endowed_accounts
        id).candidacy_bond = ED * 16 :=
  ⟨rfl, rfl⟩

/-- Claim C8: `load_spec` applied to the empty-string identifier resolves
(with a warning logged, a side effect not modelled) to the same chain
specification as `load_spec` applied to the explicit local-testnet
identifier "infra-asset-system-local": both return the specification built
by `infra_asset_system_local_config`, for every filesystem and
existential-deposit value. -/
theorem load_spec_empty_id_is_local (ED : Nat) (fs : RStr → FsFile) :
    load_spec ED fs (rstr "") = load_spec ED fs (rstr "infra-asset-system-local") ∧
    load_spec ED fs (rstr "") =
      LoadResult.ok (LoadedSpec.built (infra_asset_system_local_config ED)) :=
  ⟨rfl, rfl⟩

/-- Claim C7: when the active chain specification's extensions record is
absent (`Extensions::try_get` returns `None`), the node-start command fails
with an explicit error and node start cannot proceed; when it is present,
the `para_id` value from the extensions is exactly the sub-chain id carried
into the node-start dispatch, for every runtime variant. -/
theorem node_start_para_id_spec (e : Extensions) (rt : Runtime) :
    run_node_start none rt =
      Except.error "Could not find parachain extension in chain-spec." ∧
    run_node_start (some e) rt =
      Except.ok { para_id := e.para_id, handler := node_start_handler rt } :=
  ⟨rfl, rfl⟩

/-- Claim C10: the `Default` and `InfraAssetSystem` runtime variants are
dispatched identically outside the benchmark commands: every
`construct_async_run` command instantiates the same components (the
infra-asset-system runtime API with the Aura import queue) for both
variants, the node-start path starts the same generic Aura node handler for
both, `native_runtime_version` returns the infra-asset-system runtime
version for both, and a spec file classified as either variant is loaded as
the same `InfraAssetSystemChainSpec` type — while the benchmark dispatcher
does distinguish the two variants. -/
theorem runtime_variants_dispatch_identical (r r' : Runtime) :
    construct_async_run_components r = construct_async_run_components r' ∧
    node_start_handler r = node_start_handler r' ∧
    native_runtime_version_of r = native_runtime_version_of r' ∧
    load_spec_file_branch r = load_spec_file_branch r' ∧
    dispatchBenchmark true Runtime.Default BenchmarkCmd.Pallet ≠
      dispatchBenchmark true Runtime.InfraAssetSystem BenchmarkCmd.Pallet := by
  cases r <;> cases r' <;> exact ⟨rfl, rfl, rfl, rfl, by decide⟩

/-- Counterexample to claim C6 as stated: the machine benchmark sub-command
dispatched under the `Default` runtime variant does have a handler and runs
it (with or without the runtime-benchmarks feature), so it is not the case
that any benchmark sub-command dispatched under the `Default` variant
returns a "not supported" error. -/
theorem benchmark_machine_default_counterexample :
    dispatchBenchmark true Runtime.Default BenchmarkCmd.Machine =
      DispatchOutcome.ran BenchHandler.machineBench ∧
    dispatchBenchmark false Runtime.Default BenchmarkCmd.Machine =
      DispatchOutcome.ran BenchHandler.machineBench := by decide

/-- Claim C6 (amended): benchmark dispatch is a total match that either runs
a handler or returns an explicit error value, never panicking; the
combinations with no handler — the pallet, block and storage benchmark
sub-commands under the `Default` variant, the pallet and storage
sub-commands on a build without the runtime-benchmarks feature, and any
unrecognized benchmark sub-command — are exactly the ones that return an
explicit error, while the machine benchmark runs under every variant. -/
theorem benchmark_dispatch_error_table (fb : Bool) (rt : Runtime)
    (cmd : BenchmarkCmd) :
    (isErrored (dispatchBenchmark fb rt cmd) = true ↔
      (cmd = BenchmarkCmd.Pallet ∧ (fb = false ∨ rt = Runtime.Default)) ∨
      (cmd = BenchmarkCmd.Block ∧ rt = Runtime.Default) ∨
      (cmd = BenchmarkCmd.Storage ∧ (fb = false ∨ rt = Runtime.Default)) ∨
      cmd = BenchmarkCmd.Other) ∧
    dispatchBenchmark fb rt BenchmarkCmd.Machine =
      DispatchOutcome.ran BenchHandler.machineBench := by
  cases fb <;> cases rt <;> cases cmd <;> exact ⟨by decide, by decide⟩

/-- Counterexample to claim C1 as stated: `load_spec` does not treat
underscores and hyphens as equivalent separators.  It never replaces
underscores (only the classifier `runtime` does), so the underscore
spelling "infra_asset_system_local" falls through to the file-path branch
(here panicking on a missing file) while the hyphen spelling
"infra-asset-system-local" returns the built-in local specification. -/
theorem load_spec_separator_counterexample :
    load_spec 1 (fun _ => FsFile.missing) (rstr "infra_asset_system_local") ≠
      load_spec 1 (fun _ => FsFile.missing) (rstr "infra-asset-system-local") := by
  decide

/-- Claim C1 (amended): before branching, `load_spec` strips the sub-id
suffix via the Normalizer but performs no underscore replacement, so only
the canonical (stripped) id drives its branching: whenever extraction
succeeds, `load_spec` on the raw id equals `load_spec` on the canonical id.
Underscores and hyphens are treated as equivalent separators only by the
runtime classifier, which replaces underscores itself before branching. -/
theorem load_spec_canonical_branching (ED : Nat) (fs : RStr → FsFile)
    (id canon orig : RStr) (p : Option Nat)
    (h : extract_parachain_id id = some (canon, orig, p)) :
    load_spec ED fs id = load_spec ED fs canon ∧
    runtime id = runtime (replaceUnderscore id) := by
  have hrt : runtime id = runtime (replaceUnderscore id) := by
    simp only [runtime, replaceUnderscore_idem]
  refine ⟨?_, hrt⟩
  by_cases hK : startsWithS id KUSAMA_TEST_PARA_PREF = true
  · have hex := extract_eq_of_kusama hK
    rw [hex] at h
    cases hp : parseU32 (List.drop 14 id) with
    | none =>
      rw [hp] at h
      exact absurd h (by simp)
    | some n =>
      rw [hp] at h
      simp only [Option.some.injEq, Prod.mk.injEq] at h
      obtain ⟨h1, _, _⟩ := h
      subst h1
      have e1 : load_spec ED fs id =
          load_spec_branches ED fs (rstr "penpal-kusama") := by
        simp only [load_spec, hex, hp]
      have e2 : load_spec ED fs (rstr "penpal-kusama") =
          load_spec_branches ED fs (rstr "penpal-kusama") := by
        have hx : extract_parachain_id (rstr "penpal-kusama") =
            some (rstr "penpal-kusama", rstr "penpal-kusama", none) := by decide
        simp only [load_spec, hx]
      rw [e1, e2]
  · by_cases hP : startsWithS id INFRABLOCKSPACE_TEST_PARA_PREF = true
    · have hex := extract_eq_of_polkadot hP
      rw [hex] at h
      cases hp : parseU32 (List.drop 16 id) with
      | none =>
        rw [hp] at h
        exact absurd h (by simp)
      | some n =>
        rw [hp] at h
        simp only [Option.some.injEq, Prod.mk.injEq] at h
        obtain ⟨h1, _, _⟩ := h
        subst h1
        have e1 : load_spec ED fs id =
            load_spec_branches ED fs (rstr "penpal-polkadot") := by
          simp only [load_spec, hex, hp]
        have e2 : load_spec ED fs (rstr "penpal-polkadot") =
            load_spec_branches ED fs (rstr "penpal-polkadot") := by
          have hx : extract_parachain_id (rstr "penpal-polkadot") =
              some (rstr "penpal-polkadot", rstr "penpal-polkadot", none) := by
            decide
          simp only [load_spec, hx]
        rw [e1, e2]
    · have hK' : startsWithS id KUSAMA_TEST_PARA_PREF = false := by
        cases hv : startsWithS id KUSAMA_TEST_PARA_PREF
        · rfl
        · exact absurd hv hK
      have hP' : startsWithS id INFRABLOCKSPACE_TEST_PARA_PREF = false := by
        cases hv : startsWithS id INFRABLOCKSPACE_TEST_PARA_PREF
        · rfl
        · exact absurd hv hP
      rw [extract_eq_of_no_pref hK' hP'] at h
      simp only [Option.some.injEq, Prod.mk.injEq] at h
      obtain ⟨h1, _, _⟩ := h
      subst h1
      rfl

/-- Witness for C1 (amended): on "penpal-kusama-2004" (whose extraction
succeeds) `load_spec` coincides with `load_spec` on the canonical id
"penpal-kusama", and the classifier is invariant under its own underscore
replacement. -/
theorem load_spec_canonical_branching_witness :
    load_spec 1 (fun _ => FsFile.missing) (rstr "penpal-kusama-2004") =
      load_spec 1 (fun _ => FsFile.missing) (rstr "penpal-kusama") ∧
    runtime (rstr "penpal-kusama-2004") =
      runtime (replaceUnderscore (rstr "penpal-kusama-2004")) :=
  load_spec_canonical_branching 1 (fun _ => FsFile.missing)
    (rstr "penpal-kusama-2004") (rstr "penpal-kusama")
    (rstr "penpal-kusama-2004") (some 2004) (by decide)

/-- Claim C2: classifying the runtime variant from an already-constructed
chain specification object (reading its short-id field), from a JSON file
on disk (deserializing only the `id` field), and from the id string
directly all agree: for every specification whose id is `i` and every file
whose JSON document carries the id `i`, the object-based classifier equals
`runtime i`, and the file-based classifier returns `PanicOr.ok r` exactly
when `runtime i` returns `r`. -/
theorem runtime_classifier_agreement (s : ChainSpecData) (fs : RStr → FsFile)
    (path : RStr) (j : Json) (full : Option ChainSpecData) (i : RStr)
    (r : Runtime) (hs : s.id = i) (hfile : fs path = FsFile.file j full)
    (hid : deserializeEmptyChainSpecWithId j = some i) :
    chainSpecRuntime s = runtime i ∧
    (pathBufRuntime fs path = PanicOr.ok r ↔ runtime i = some r) := by
  constructor
  · rw [chainSpecRuntime, hs]
  · cases hr : runtime i with
    | none => simp [pathBufRuntime, hfile, hid, hr]
    | some r' => simp [pathBufRuntime, hfile, hid, hr]

/-- Witness for C2: the live spec built by `infra_asset_system_config` (id
"infra-asset-system") and a JSON file carrying that same id classify in
agreement with the string-based classifier. -/
theorem runtime_classifier_agreement_witness :
    chainSpecRuntime (infra_asset_system_config 1) =
      runtime (rstr "infra-asset-system") ∧
    (pathBufRuntime
        (fun _ => FsFile.file
          (Json.obj [(rstr "id", Json.str (rstr "infra-asset-system"))]) none)
        (rstr "spec.json") = PanicOr.ok Runtime.InfraAssetSystem ↔
      runtime (rstr "infra-asset-system") = some Runtime.InfraAssetSystem) :=
  runtime_classifier_agreement (infra_asset_system_config 1)
    (fun _ => FsFile.file
      (Json.obj [(rstr "id", Json.str (rstr "infra-asset-system"))]) none)
    (rstr "spec.json")
    (Json.obj [(rstr "id", Json.str (rstr "infra-asset-system"))]) none
    (rstr "infra-asset-system") Runtime.InfraAssetSystem rfl rfl (by decide)

/-- Counterexample to claim C5 as stated: when the identifier is not a
recognized short name and the corresponding file is missing, the failure is
not propagated as a returned result/error value — `load_spec` aborts with a
panic (the `expect("Failed to open file")` inside the `PathBuf` runtime
resolver), shown here on a concrete missing path. -/
theorem load_spec_missing_file_counterexample :
    load_spec 1 (fun _ => FsFile.missing) (rstr "some-missing-chain") =
      LoadResult.panic "Failed to open file" := by decide

/-- Claim C5 (amended): when `load_spec` is given an identifier that is not
a recognized short name, it fails at the point of load without returning a
partial specification — but a missing/unreadable file or a file without a
readable `id` field aborts with a panic during runtime classification
(rather than returning an error value), and only a failure of the full
specification parse after successful classification is returned as an
error value; a specification is returned only when the full parse
succeeds. -/
theorem load_spec_failure_modes (ED : Nat) (fs : RStr → FsFile)
    (id canon orig : RStr) (p : Option Nat)
    (hx : extract_parachain_id id = some (canon, orig, p))
    (h1 : canon ≠ rstr "infra-asset-system-dev")
    (h2 : canon ≠ rstr "infra-asset-system-local")
    (h3 : canon ≠ rstr "infra-asset-system-genesis")
    (h4 : canon ≠ rstr "infra-asset-system")
    (h5 : canon ≠ rstr "") :
    (fs canon = FsFile.missing →
        load_spec ED fs id = LoadResult.panic "Failed to open file") ∧
    (fs canon = FsFile.notJson →
        load_spec ED fs id =
          LoadResult.panic "Failed to read json file with ChainSpec configuration") ∧
    (∀ j full, fs canon = FsFile.file j full →
        deserializeEmptyChainSpecWithId j = none →
        load_spec ED fs id =
          LoadResult.panic "Failed to read json file with ChainSpec configuration") ∧
    (∀ j r, fs canon = FsFile.file j none →
        pathBufRuntime fs canon = PanicOr.ok r →
        load_spec ED fs id = LoadResult.err "from_json_file error") ∧
    (∀ s, load_spec ED fs id = LoadResult.ok s →
        ∃ j sp, fs canon = FsFile.file j (some sp) ∧
          s = LoadedSpec.fromFile SpecType.infraAssetSystemChainSpec sp) := by
  have hls : load_spec ED fs id = load_spec_branches ED fs canon := by
    simp only [load_spec, hx]
  have hbr : load_spec_branches ED fs canon =
      (match pathBufRuntime fs canon with
      | PanicOr.panic m => LoadResult.panic m
      | PanicOr.ok r =>
          match fs canon with
          | FsFile.file _ (some sp) =>
              LoadResult.ok (LoadedSpec.fromFile (load_spec_file_branch r) sp)
          | FsFile.file _ none => LoadResult.err "from_json_file error"
          | FsFile.missing => LoadResult.err "from_json_file error"
          | FsFile.notJson => LoadResult.err "from_json_file error") := by
    simp only [load_spec_branches, if_neg h1, if_neg h2, if_neg h3, if_neg h4,
      if_neg h5]
  rw [hls, hbr]
  refine ⟨?_, ?_, ?_, ?_, ?_⟩
  · intro hm
    simp [pathBufRuntime, hm]
  · intro hm
    simp [pathBufRuntime, hm]
  · intro j full hf hj
    simp [pathBufRuntime, hf, hj]
  · intro j r hf hpr
    simp [hpr, hf]
  · intro s hok
    cases hpr : pathBufRuntime fs canon with
    | panic m =>
      rw [hpr] at hok
      exact absurd hok (by simp)
    | ok r =>
      rw [hpr] at hok
      cases hf : fs canon with
      | missing =>
        rw [hf] at hok
        exact absurd hok (by simp)
      | notJson =>
        rw [hf] at hok
        exact absurd hok (by simp)
      | file j full =>
        cases full with
        | none =>
          rw [hf] at hok
          exact absurd hok (by simp)
        | some sp =>
          rw [hf] at hok
          simp only [LoadResult.ok.injEq] at hok
          refine ⟨j, sp, rfl, ?_⟩
          rw [← hok]

/-- Witness for C5 (amended): on the unrecognized identifier
"unknown-chain" with an empty filesystem, `load_spec` aborts at the point
of load with the file-open panic. -/
theorem load_spec_failure_modes_witness :
    load_spec 1 (fun _ => FsFile.missing) (rstr "unknown-chain") =
      LoadResult.panic "Failed to open file" :=
  (load_spec_failure_modes 1 (fun _ => FsFile.missing) (rstr "unknown-chain")
      (rstr "unknown-chain") (rstr "unknown-chain") none (by decide) (by decide)
      (by decide) (by decide) (by decide) (by decide)).1 rfl
